import Mathlib

/-!
Shallow embedding of the search page logic of
docusaurus-theme-search-typesense (theme SearchPage component).

The embedded pieces are:
  * the search-result state and its reducer (events reset, loading,
    update, advance) from SearchPageContent;
  * the result-event handler installed on the search helper;
  * the per-collection version-selection initializer from
    useDocsSearchVersionsHelpers;
  * the request builder makeSearch, together with a small timed model of
    the query-change effect that schedules makeSearch through setTimeout.

TypeScript numbers that are integers in this component (pages, hit
counts) are modelled as Int; nullable fields as Option.  The TypeScript
non-null assertion operator is erased at runtime, so where a null can
reach an arithmetic operator or comparison we model the JavaScript
coercion explicitly (null coerces to 0).
-/

/-- One rendered search result, as stored in the reducer state. -/
structure ResultItem where
  title : String
  url : String
  summary : String
  breadcrumbs : List String
deriving Repr, DecidableEq

/-- The ResultDispatcherState record of SearchPageContent. -/
structure ResultDispatcherState where
  items : List ResultItem
  query : Option String
  totalResults : Option Int
  totalPages : Option Int
  lastPage : Option Int
  hasMore : Option Bool
  loading : Option Bool
deriving Repr, DecidableEq

/-- The ResultDispatcher event sum type: reset, loading, update(value),
advance. -/
inductive ResultDispatcher where
  | reset
  | loading
  | update (value : ResultDispatcherState)
  | advance
deriving Repr, DecidableEq

/-- The initialSearchResultState constant: empty items, every other field
null. -/
def initialSearchResultState : ResultDispatcherState :=
  { items := []
    query := none
    totalResults := none
    totalPages := none
    lastPage := none
    hasMore := none
    loading := none }

/-- JavaScript ToNumber on a possibly-null integer: null coerces to 0.
Used where the source applies arithmetic or a relational comparison to a
field that the TypeScript non-null assertion leaves unchecked at
runtime. -/
def jsToNum : Option Int → Int
  | none => 0
  | some n => n

/-- The reducer passed to useReducer in SearchPageContent.  The first
argument is the currently active searchQuery captured by the closure.
The update guard is the strict inequality searchQuery !== value.query
(a string against a nullable string); the advance case evaluates
totalPages! > lastPage! + 1 with JavaScript null coercion, since the
non-null assertions are erased at runtime. -/
def searchResultReducer (searchQuery : String)
    (prevState : ResultDispatcherState) (data : ResultDispatcher) :
    ResultDispatcherState :=
  match data with
  | .reset => initialSearchResultState
  | .loading => { prevState with loading := some true }
  | .update value =>
      if some searchQuery ≠ value.query then
        prevState
      else
        { value with
          items :=
            if value.lastPage = some 0 then value.items
            else prevState.items ++ value.items }
  | .advance =>
      let hasMore : Bool :=
        decide (jsToNum prevState.totalPages > jsToNum prevState.lastPage + 1)
      { prevState with
        lastPage :=
          if hasMore then some (jsToNum prevState.lastPage + 1)
          else prevState.lastPage
        hasMore := some hasMore }

/-- The sanitizeValue helper of the result handler: a global replacement
of the highlight class name. -/
def sanitizeValue (value : String) : String :=
  value.replace "algolia-docsearch-suggestion--highlight" "search-result-match"

/-- One hit of a result payload.  highlightResult holds the optional
highlight values for hierarchy levels 0..6; snippetContent is the
optional snippet value. -/
structure SearchHit where
  url : String
  highlightResult : List (Option String)
  snippetContent : Option String
deriving Repr, DecidableEq

/-- The per-hit mapping of the result handler.  resolveUrl stands for the
browser URL parsing combined with the external-url regex test (external
library code): it turns the raw hit url into the rendered link target.
The titles list collects the sanitized nonempty highlight values of
levels 0..6; the title is the popped last element and the breadcrumbs are
the remaining ones. -/
def mkResultItem (resolveUrl : String → String) (hit : SearchHit) :
    ResultItem :=
  let titles :=
    ((List.range 7).map (fun lvl =>
        match hit.highlightResult.getD lvl none with
        | some v => sanitizeValue v
        | none => "")).filter (fun v => decide (v ≠ ""))
  { title := titles.getLastD ""
    url := resolveUrl hit.url
    summary :=
      match hit.snippetContent with
      | some c => sanitizeValue c ++ "..."
      | none => ""
    breadcrumbs := titles.dropLast }

/-- A result payload delivered by the search helper.  hits is none when
the delivered hits field is not an array (the Array.isArray guard). -/
structure SearchResults where
  query : String
  hits : Option (List SearchHit)
  page : Int
  nbHits : Int
  nbPages : Int
deriving Repr, DecidableEq

/-- The result-event handler: an empty query or a non-array hits field
dispatches reset; otherwise it dispatches update with the mapped items
and the paging fields of the payload. -/
def onResult (resolveUrl : String → String) (r : SearchResults) :
    ResultDispatcher :=
  if r.query = "" ∨ r.hits = none then
    ResultDispatcher.reset
  else
    ResultDispatcher.update
      { items := (r.hits.getD []).map (mkResultItem resolveUrl)
        query := some r.query
        totalResults := some r.nbHits
        totalPages := some r.nbPages
        lastPage := some r.page
        hasMore := some (decide (r.nbPages > r.page + 1))
        loading := some false }

/-- One version of a docs plugin instance, with its name and display
label. -/
structure DocsVersion where
  name : String
  label : String
deriving Repr, DecidableEq

/-- The initializer of the searchVersions state in
useDocsSearchVersionsHelpers: each plugin id is mapped to the name of
versions[0] through a non-null assertion, so an empty versions list makes
the access throw at runtime, modelled as none. -/
def searchVersionsInit (allDocsData : List (String × List DocsVersion)) :
    Option (List (String × String)) :=
  match allDocsData with
  | [] => some []
  | (pluginId, versions) :: rest =>
      match versions with
      | [] => none
      | v :: _ =>
          (searchVersionsInit rest).map (fun acc => (pluginId, v.name) :: acc)

/-- A search request as submitted by makeSearch: the disjunctive facet
refinements applied to the helper, the query and the page. -/
structure SearchRequest where
  refinements : List (String × String)
  query : String
  page : Int
deriving Repr, DecidableEq

/-- The makeSearch dispatcher: two mandatory disjunctive refinements
(docusaurus_tag default and the current locale on language) plus one
docusaurus_tag refinement per entry of the searchVersions map, then the
query submitted at the given page (the source default for page is 0).
The helper object the refinements are added to is recreated on every
render of the component, and adding an already-applied disjunctive
refinement value is idempotent in the helper library, so the refinement
set of each submitted request is the set applied here. -/
def makeSearch (currentLocale : String)
    (searchVersions : List (String × String)) (searchQuery : String)
    (page : Int) : SearchRequest :=
  { refinements :=
      [("docusaurus_tag", "default"), ("language", currentLocale)] ++
        searchVersions.map
          (fun pv => ("docusaurus_tag", "docs-" ++ pv.1 ++ "-" ++ pv.2))
    query := searchQuery
    page := page }

/-- Modelled from the spec: the refinement set as claim C5 words it, for
comparison with makeSearch.  Two mandatory refinements plus one
docusaurus_tag refinement per VERSIONED collection only (a collection
with more than one version), the tag built from the collection id and its
selected version. -/
def claimedRefinements (currentLocale : String)
    (allDocsData : List (String × List DocsVersion))
    (searchVersions : List (String × String)) : List (String × String) :=
  [("docusaurus_tag", "default"), ("language", currentLocale)] ++
    (allDocsData.filter (fun p => decide (1 < p.2.length))).map
      (fun p =>
        ("docusaurus_tag",
          "docs-" ++ p.1 ++ "-" ++ ((searchVersions.lookup p.1).getD "")))

/-- The query value current at time t, given the chronologically ordered
list of query-change events (time, new value): the value of the last
change at or before t, the empty string before any change. -/
def queryAt (changes : List (Nat × String)) (t : Nat) : String :=
  ((changes.filter (fun c => decide (c.1 ≤ t))).foldl
    (fun _ c => c.2) "")

/-- Timed model of the query-change effect: on each change the effect
dispatches reset, and when the new query is nonempty it dispatches
loading and schedules a 300 ms setTimeout whose callback invokes
makeSearch at page 0.  The effect body returns no cleanup function, so a
scheduled timeout is never cleared and fires unconditionally; makeSearch
is an identity-stable callback that reads the searchQuery current at
fire time, not the one current when the timeout was scheduled.  The
result is the list of network requests issued, one per scheduled
timeout, in schedule order. -/
def issuedRequests (currentLocale : String)
    (searchVersions : List (String × String))
    (changes : List (Nat × String)) : List SearchRequest :=
  changes.filterMap (fun c =>
    if c.2 = "" then none
    else
      some (makeSearch currentLocale searchVersions
        (queryAt changes (c.1 + 300)) 0))

/-- Paging consistency of a reducer state: totalPages is null exactly
when lastPage is null.  The initial state has both null, and every event
the page dispatches keeps the two fields in step, since the only update
payloads come from the result handler, which fills both from the same
response. -/
def pagingConsistent (S : ResultDispatcherState) : Prop :=
  S.totalPages = none ↔ S.lastPage = none

/-- Claim C6: for every previous state S (and any active query), the
reset event returns the initial empty state: empty items and every other
field null, regardless of S. -/
theorem reducer_reset_returns_initial (q : String)
    (S : ResultDispatcherState) :
    searchResultReducer q S ResultDispatcher.reset =
        initialSearchResultState ∧
      initialSearchResultState.items = [] ∧
      initialSearchResultState.query = none ∧
      initialSearchResultState.totalResults = none ∧
      initialSearchResultState.totalPages = none ∧
      initialSearchResultState.lastPage = none ∧
      initialSearchResultState.hasMore = none ∧
      initialSearchResultState.loading = none := by
  refine ⟨rfl, rfl, rfl, rfl, rfl, rfl, rfl, rfl⟩

/-- Claim C8: for every state S, the loading event sets loading to true
and leaves every other field unchanged. -/
theorem reducer_loading_preserves (q : String)
    (S : ResultDispatcherState) :
    searchResultReducer q S ResultDispatcher.loading =
        { S with loading := some true } ∧
      (searchResultReducer q S ResultDispatcher.loading).items = S.items ∧
      (searchResultReducer q S ResultDispatcher.loading).query = S.query ∧
      (searchResultReducer q S ResultDispatcher.loading).totalResults =
        S.totalResults ∧
      (searchResultReducer q S ResultDispatcher.loading).totalPages =
        S.totalPages ∧
      (searchResultReducer q S ResultDispatcher.loading).lastPage =
        S.lastPage ∧
      (searchResultReducer q S ResultDispatcher.loading).hasMore =
        S.hasMore ∧
      (searchResultReducer q S ResultDispatcher.loading).loading =
        some true := by
  refine ⟨rfl, rfl, rfl, rfl, rfl, rfl, rfl, rfl⟩

/-- Claim C1: an update event whose payload query differs from the
currently active search query returns the previous state unchanged (the
stale response is discarded). -/
theorem reducer_update_stale_noop (q : String) (S v : ResultDispatcherState)
    (h : v.query ≠ some q) :
    searchResultReducer q S (ResultDispatcher.update v) = S := by
  simp only [searchResultReducer]
  rw [if_pos (Ne.symm h)]

theorem reducer_update_stale_noop_witness :
    searchResultReducer "install" initialSearchResultState
        (ResultDispatcher.update
          { initialSearchResultState with query := some "inst" }) =
      initialSearchResultState :=
  reducer_update_stale_noop "install" initialSearchResultState
    { initialSearchResultState with query := some "inst" } (by decide)

/-- Claim C2: an update event whose payload query equals the active query
replaces the state with the payload, except that items is the payload
items when the payload lastPage equals 0 and the previous items followed
by the payload items otherwise. -/
theorem reducer_update_fresh (q : String) (S v : ResultDispatcherState)
    (h : v.query = some q) :
    searchResultReducer q S (ResultDispatcher.update v) =
        { v with
          items :=
            if v.lastPage = some 0 then v.items
            else S.items ++ v.items } ∧
      (v.lastPage = some 0 →
        (searchResultReducer q S (ResultDispatcher.update v)).items =
          v.items) ∧
      (v.lastPage ≠ some 0 →
        (searchResultReducer q S (ResultDispatcher.update v)).items =
          S.items ++ v.items) ∧
      (searchResultReducer q S (ResultDispatcher.update v)).query =
        v.query ∧
      (searchResultReducer q S (ResultDispatcher.update v)).totalResults =
        v.totalResults ∧
      (searchResultReducer q S (ResultDispatcher.update v)).totalPages =
        v.totalPages ∧
      (searchResultReducer q S (ResultDispatcher.update v)).lastPage =
        v.lastPage ∧
      (searchResultReducer q S (ResultDispatcher.update v)).hasMore =
        v.hasMore ∧
      (searchResultReducer q S (ResultDispatcher.update v)).loading =
        v.loading := by
  have hg : ¬ some q ≠ v.query := by
    rw [h]
    exact fun hc => hc rfl
  have hred : searchResultReducer q S (ResultDispatcher.update v) =
      { v with
        items :=
          if v.lastPage = some 0 then v.items
          else S.items ++ v.items } := by
    simp only [searchResultReducer, if_neg hg]
  refine ⟨hred, fun h0 => ?_, fun h0 => ?_, ?_, ?_, ?_, ?_, ?_, ?_⟩ <;>
    rw [hred]
  · simp [h0]
  · simp [h0]

theorem reducer_update_fresh_witness :
    searchResultReducer "install"
        { initialSearchResultState with
          items := [⟨"t0", "u0", "s0", []⟩] }
        (ResultDispatcher.update
          { items := [⟨"t1", "u1", "s1", []⟩]
            query := some "install"
            totalResults := some 2
            totalPages := some 1
            lastPage := some 1
            hasMore := some false
            loading := some false }) =
      { items := [⟨"t0", "u0", "s0", []⟩, ⟨"t1", "u1", "s1", []⟩]
        query := some "install"
        totalResults := some 2
        totalPages := some 1
        lastPage := some 1
        hasMore := some false
        loading := some false } := by
  have h := (reducer_update_fresh "install"
    { initialSearchResultState with items := [⟨"t0", "u0", "s0", []⟩] }
    { items := [⟨"t1", "u1", "s1", []⟩]
      query := some "install"
      totalResults := some 2
      totalPages := some 1
      lastPage := some 1
      hasMore := some false
      loading := some false } rfl).1
  rw [h]
  decide

/-- Claim C3: on a state with integer (non-null) totalPages and lastPage,
the advance event computes hasMore as totalPages > lastPage + 1; when
true it increments lastPage and records hasMore true, otherwise it leaves
lastPage unchanged and records hasMore false; in particular totalPages 3
with lastPage 0 advances to lastPage 1 with hasMore true, and totalPages
3 with lastPage 2 keeps lastPage 2 with hasMore false. -/
theorem reducer_advance_int (q : String) (S : ResultDispatcherState)
    (tp lp : Int) (h1 : S.totalPages = some tp) (h2 : S.lastPage = some lp) :
    (tp > lp + 1 →
        searchResultReducer q S ResultDispatcher.advance =
          { S with lastPage := some (lp + 1), hasMore := some true }) ∧
      (¬ tp > lp + 1 →
        searchResultReducer q S ResultDispatcher.advance =
          { S with hasMore := some false }) ∧
      (searchResultReducer q
          { initialSearchResultState with
            totalPages := some 3, lastPage := some 0 }
          ResultDispatcher.advance).lastPage = some 1 ∧
      (searchResultReducer q
          { initialSearchResultState with
            totalPages := some 3, lastPage := some 0 }
          ResultDispatcher.advance).hasMore = some true ∧
      (searchResultReducer q
          { initialSearchResultState with
            totalPages := some 3, lastPage := some 2 }
          ResultDispatcher.advance).lastPage = some 2 ∧
      (searchResultReducer q
          { initialSearchResultState with
            totalPages := some 3, lastPage := some 2 }
          ResultDispatcher.advance).hasMore = some false := by
  refine ⟨?_, ?_, rfl, rfl, rfl, rfl⟩
  · intro hm
    simp [searchResultReducer, jsToNum, h1, h2, hm]
  · intro hm
    simp [searchResultReducer, jsToNum, h1, h2, hm]

theorem reducer_advance_int_witness :
    searchResultReducer "install"
        { initialSearchResultState with
          totalPages := some 3, lastPage := some 0 }
        ResultDispatcher.advance =
      { initialSearchResultState with
        totalPages := some 3, lastPage := some 1, hasMore := some true } := by
  have h := (reducer_advance_int "install"
    { initialSearchResultState with
      totalPages := some 3, lastPage := some 0 } 3 0 rfl rfl).1
    (by decide)
  rw [h]
  decide

/-- Claim C9 counterexample: a state whose lastPage is null but whose
totalPages is the number 5 makes the advance comparison true, not false:
null coerces to 0 and null + 1 to 1, so 5 > 1 holds and the reducer
increments lastPage to 1 and sets hasMore true, contradicting the claimed
unchanged lastPage and false hasMore. -/
theorem reducer_advance_counterexample :
    ({ initialSearchResultState with
        totalPages := some 5 } : ResultDispatcherState).lastPage = none ∧
      (searchResultReducer ""
          { initialSearchResultState with totalPages := some 5 }
          ResultDispatcher.advance).hasMore = some true ∧
      (searchResultReducer ""
          { initialSearchResultState with totalPages := some 5 }
          ResultDispatcher.advance).lastPage = some 1 := by
  refine ⟨rfl, rfl, rfl⟩

/-- Helper: an update event produced by the result handler carries a
paging-consistent payload (both totalPages and lastPage are filled from
the response). -/
theorem onResult_update_consistent (resolveUrl : String → String)
    (r : SearchResults) (v : ResultDispatcherState)
    (h : onResult resolveUrl r = ResultDispatcher.update v) :
    (v.totalPages = none ↔ v.lastPage = none) := by
  by_cases hg : r.query = "" ∨ r.hits = none
  · rw [onResult.eq_def, if_pos hg] at h
    exact ResultDispatcher.noConfusion h
  · rw [onResult.eq_def, if_neg hg] at h
    injection h with hv
    rw [← hv]
    simp

/-- Claim C9 as amended: the advance event is total on every state; a
runtime null coerces to 0 in the comparison and null + 1 evaluates to 1.
On every paging-consistent state with a null operand — and paging
consistency holds for the initial state and is preserved by every event
the page dispatches, update payloads being built by the result handler —
the comparison is false and the reducer returns the state with hasMore
false and lastPage unchanged, as the claim says; but on an arbitrary
state outside the invariant, with numeric totalPages greater than 1 and
null lastPage, the comparison is true and the reducer returns lastPage 1
and hasMore true. -/
theorem reducer_advance_null_operands (q : String)
    (S : ResultDispatcherState) :
    (pagingConsistent S → (S.totalPages = none ∨ S.lastPage = none) →
        searchResultReducer q S ResultDispatcher.advance =
          { S with hasMore := some false }) ∧
      pagingConsistent initialSearchResultState ∧
      (∀ e, pagingConsistent S →
        (∀ v, e = ResultDispatcher.update v →
          ∃ resolveUrl r, onResult resolveUrl r = ResultDispatcher.update v) →
        pagingConsistent (searchResultReducer q S e)) ∧
      (∀ tp : Int, S.totalPages = some tp → S.lastPage = none → 1 < tp →
        searchResultReducer q S ResultDispatcher.advance =
          { S with lastPage := some 1, hasMore := some true }) := by
  have h0 : jsToNum (none : Option Int) = 0 := rfl
  refine ⟨?_, Iff.rfl, ?_, ?_⟩
  · intro hS hor
    have hS' : S.totalPages = none ↔ S.lastPage = none := hS
    have hboth : S.totalPages = none ∧ S.lastPage = none := by
      rcases hor with h | h
      · exact ⟨h, hS'.mp h⟩
      · exact ⟨hS'.mpr h, h⟩
    have hm : ¬ jsToNum S.totalPages > jsToNum S.lastPage + 1 := by
      rw [hboth.1, hboth.2, h0]
      omega
    have hd : decide (jsToNum S.totalPages > jsToNum S.lastPage + 1) =
        false := decide_eq_false hm
    simp [searchResultReducer, hd]
  · intro e hS hup
    have hS' : S.totalPages = none ↔ S.lastPage = none := hS
    cases e with
    | reset => exact Iff.rfl
    | loading => exact hS
    | update v =>
        obtain ⟨resolveUrl, r, hr⟩ := hup v rfl
        have hv := onResult_update_consistent resolveUrl r v hr
        by_cases hg : some q ≠ v.query
        · simp only [searchResultReducer, if_pos hg]
          exact hS
        · simp only [searchResultReducer, if_neg hg]
          exact hv
    | advance =>
        by_cases hm : jsToNum S.totalPages > jsToNum S.lastPage + 1
        · have ht : S.totalPages ≠ none := by
            intro h
            have hl : S.lastPage = none := hS'.mp h
            rw [h, hl, h0] at hm
            omega
          have hd : decide (jsToNum S.totalPages >
              jsToNum S.lastPage + 1) = true := decide_eq_true hm
          simp [searchResultReducer, hd, pagingConsistent, ht]
        · have hd : decide (jsToNum S.totalPages >
              jsToNum S.lastPage + 1) = false := decide_eq_false hm
          simp only [searchResultReducer, hd]
          simpa [pagingConsistent] using hS
  · intro tp h1 h2 h3
    have hm : jsToNum S.totalPages > jsToNum S.lastPage + 1 := by
      rw [h1, h2, h0]
      have h0t : jsToNum (some tp) = tp := rfl
      rw [h0t]
      omega
    have hd : decide (jsToNum S.totalPages > jsToNum S.lastPage + 1) =
        true := decide_eq_true hm
    simp [searchResultReducer, hd, h2, h0]
    rw [h2, h0] at hm
    omega

theorem reducer_advance_null_operands_witness :
    searchResultReducer "" initialSearchResultState
        ResultDispatcher.advance =
      { initialSearchResultState with hasMore := some false } :=
  (reducer_advance_null_operands "" initialSearchResultState).1 Iff.rfl
    (Or.inl rfl)

/-- Claim C7: a result payload whose query is the empty string or whose
hits field is not an array makes the handler dispatch reset and never
update, and the dispatched event takes any state to the initial empty
state. -/
theorem onResult_malformed_resets (resolveUrl : String → String)
    (r : SearchResults) (q : String) (S : ResultDispatcherState)
    (h : r.query = "" ∨ r.hits = none) :
    onResult resolveUrl r = ResultDispatcher.reset ∧
      (∀ v, onResult resolveUrl r ≠ ResultDispatcher.update v) ∧
      searchResultReducer q S (onResult resolveUrl r) =
        initialSearchResultState := by
  have hr : onResult resolveUrl r = ResultDispatcher.reset := by
    simp only [onResult, if_pos h]
  refine ⟨hr, fun v hv => ?_, ?_⟩
  · rw [hr] at hv
    exact ResultDispatcher.noConfusion hv
  · rw [hr]
    rfl

theorem onResult_malformed_resets_witness :
    onResult (fun u => u)
        { query := "", hits := none, page := 0, nbHits := 0, nbPages := 0 } =
        ResultDispatcher.reset ∧
      searchResultReducer "install"
          { initialSearchResultState with loading := some true }
          (onResult (fun u => u)
            { query := "", hits := none, page := 0, nbHits := 0,
              nbPages := 0 }) =
        initialSearchResultState :=
  ⟨(onResult_malformed_resets (fun u => u)
      { query := "", hits := none, page := 0, nbHits := 0, nbPages := 0 }
      "install" { initialSearchResultState with loading := some true }
      (Or.inl rfl)).1,
    (onResult_malformed_resets (fun u => u)
      { query := "", hits := none, page := 0, nbHits := 0, nbPages := 0 }
      "install" { initialSearchResultState with loading := some true }
      (Or.inl rfl)).2.2⟩

/-- Helper: a successful searchVersions initialization yields one
selection per docs plugin entry. -/
theorem searchVersionsInit_length :
    ∀ (d : List (String × List DocsVersion)) (sv : List (String × String)),
      searchVersionsInit d = some sv → sv.length = d.length := by
  intro d
  induction d with
  | nil =>
      intro sv h
      simp only [searchVersionsInit, Option.some.injEq] at h
      rw [← h]
      rfl
  | cons a rest ih =>
      intro sv h
      obtain ⟨pluginId, versions⟩ := a
      cases versions with
      | nil => simp [searchVersionsInit] at h
      | cons v vs =>
          simp only [searchVersionsInit] at h
          obtain ⟨acc, hacc, hsv⟩ := Option.map_eq_some'.mp h
          rw [← hsv]
          simp [ih acc hacc]

/-- Helper: an entry with an empty versions list makes the
searchVersions initialization fail. -/
theorem searchVersionsInit_none_of_empty :
    ∀ d : List (String × List DocsVersion),
      (∃ p ∈ d, p.2 = []) → searchVersionsInit d = none := by
  intro d
  induction d with
  | nil =>
      rintro ⟨p, hp, _⟩
      exact absurd hp (List.not_mem_nil p)
  | cons a rest ih =>
      rintro ⟨p, hp, hpe⟩
      obtain ⟨pluginId, versions⟩ := a
      rcases List.mem_cons.mp hp with heq | hmem
      · rw [heq] at hpe
        have hv : versions = [] := hpe
        rw [hv]
        simp [searchVersionsInit]
      · cases versions with
        | nil => simp [searchVersionsInit]
        | cons v vs => simp [searchVersionsInit, ih ⟨p, hmem, hpe⟩]

/-- Claim C10: the searchVersions initialization maps every plugin id to
the name of its first version through a non-null assertion, so any input
in which some collection has an empty versions list makes initialization
fail (modelled as none) instead of producing a default selection. -/
theorem searchVersionsInit_empty_fails
    (d : List (String × List DocsVersion)) (h : ∃ p ∈ d, p.2 = []) :
    searchVersionsInit d = none ∧
      ∀ sv, searchVersionsInit d ≠ some sv := by
  refine ⟨searchVersionsInit_none_of_empty d h, fun sv hsv => ?_⟩
  rw [searchVersionsInit_none_of_empty d h] at hsv
  exact Option.noConfusion hsv

theorem searchVersionsInit_empty_fails_witness :
    searchVersionsInit [("default", [])] = none :=
  (searchVersionsInit_empty_fails [("default", [])]
    ⟨("default", []), by simp, rfl⟩).1

/-- Claim C5 counterexample: with a single unversioned docs collection
(one version only), initialization selects that version, and the claimed
refinement set (one extra tag per VERSIONED collection only) has just the
two mandatory refinements, while makeSearch also adds the
docs-default-current tag for the unversioned collection, so the two sets
differ. -/
theorem makeSearch_claimed_counterexample :
    searchVersionsInit
        [("default", [{ name := "current", label := "Current" }])] =
        some [("default", "current")] ∧
      claimedRefinements "en"
          [("default", [{ name := "current", label := "Current" }])]
          [("default", "current")] =
        [("docusaurus_tag", "default"), ("language", "en")] ∧
      (makeSearch "en" [("default", "current")] "install" 0).refinements ≠
        claimedRefinements "en"
          [("default", [{ name := "current", label := "Current" }])]
          [("default", "current")] := by
  refine ⟨rfl, rfl, ?_⟩
  decide

/-- Helper: a successful searchVersions initialization selects the first
version of every docs collection, so each collection of the input is
represented in the selection map. -/
theorem searchVersionsInit_mem :
    ∀ (d : List (String × List DocsVersion)) (sv : List (String × String))
      (pid : String) (v : DocsVersion) (vs : List DocsVersion),
      searchVersionsInit d = some sv → (pid, v :: vs) ∈ d →
      (pid, v.name) ∈ sv := by
  intro d
  induction d with
  | nil =>
      intro sv pid v vs _ hmem
      exact absurd hmem (List.not_mem_nil (pid, v :: vs))
  | cons a rest ih =>
      intro sv pid v vs h hmem
      obtain ⟨pid0, versions0⟩ := a
      cases versions0 with
      | nil => simp [searchVersionsInit] at h
      | cons v0 vs0 =>
          simp only [searchVersionsInit] at h
          obtain ⟨acc, hacc, hsv⟩ := Option.map_eq_some'.mp h
          rw [← hsv]
          rcases List.mem_cons.mp hmem with heq | hmem0
          · have h1 : pid = pid0 := congrArg Prod.fst heq
            have h2 : v :: vs = v0 :: vs0 := congrArg Prod.snd heq
            have h3 : v = v0 := (List.cons.injEq v vs v0 vs0).mp h2 |>.1
            rw [h1, h3]
            exact List.mem_cons_self (pid0, v0.name) acc
          · exact List.mem_cons_of_mem _ (ih acc pid v vs hacc hmem0)

/-- Claim C5 as amended: every request makeSearch constructs applies the
two mandatory disjunctive refinements (docusaurus_tag default and the
active locale on language) plus one docusaurus_tag refinement per docs
collection in the selection map, versioned or not, the tag built from the
collection id and its selected version; the query is submitted at the
given page (0 from the debounce effect, lastPage from the pagination
effect).  When the selections come from a successful initialization there
are exactly 2 + (number of collections) refinements, and every collection
of the input — including one with a single version, which the version
selector would not even display — contributes the tag built from its id
and its selected first version. -/
theorem makeSearch_request_shape (locale q : String) (p : Int)
    (d : List (String × List DocsVersion)) (sv : List (String × String))
    (h : searchVersionsInit d = some sv) :
    (makeSearch locale sv q p).refinements =
        ("docusaurus_tag", "default") :: ("language", locale) ::
          sv.map
            (fun e => ("docusaurus_tag", "docs-" ++ e.1 ++ "-" ++ e.2)) ∧
      (makeSearch locale sv q p).refinements.length = 2 + d.length ∧
      (makeSearch locale sv q p).query = q ∧
      (makeSearch locale sv q p).page = p ∧
      (∀ pv ∈ sv,
        ("docusaurus_tag", "docs-" ++ pv.1 ++ "-" ++ pv.2) ∈
          (makeSearch locale sv q p).refinements) ∧
      (∀ (pid : String) (v : DocsVersion) (vs : List DocsVersion),
        (pid, v :: vs) ∈ d →
        ("docusaurus_tag", "docs-" ++ pid ++ "-" ++ v.name) ∈
          (makeSearch locale sv q p).refinements) := by
  have hmemsv : ∀ pv ∈ sv,
      ("docusaurus_tag", "docs-" ++ pv.1 ++ "-" ++ pv.2) ∈
        (makeSearch locale sv q p).refinements := by
    intro pv hpv
    simp only [makeSearch, List.mem_append, List.mem_map]
    exact Or.inr ⟨pv, hpv, rfl⟩
  refine ⟨rfl, ?_, rfl, rfl, hmemsv, ?_⟩
  · have hlen := searchVersionsInit_length d sv h
    simp [makeSearch, hlen]
    omega
  · intro pid v vs hmem
    exact hmemsv (pid, v.name) (searchVersionsInit_mem d sv pid v vs h hmem)

theorem makeSearch_request_shape_witness :
    (makeSearch "en" [("default", "current")] "install" 0).refinements.length =
      2 + ([("default", [{ name := "current", label := "Current" }])] :
        List (String × List DocsVersion)).length :=
  (makeSearch_request_shape "en" "install" 0
    [("default", [{ name := "current", label := "Current" }])]
    [("default", "current")] rfl).2.1

/-- Claim C4 counterexample: two query changes 100 ms apart (within the
300 ms window) schedule two timeouts and neither is cleared, so two
requests are issued, not one; both carry the final query value. -/
theorem debounce_single_request_counterexample :
    (100 : Nat) < 0 + 300 ∧
      (issuedRequests "en" [] [(0, "a"), (100, "ab")]).length = 2 ∧
      (issuedRequests "en" [] [(0, "a"), (100, "ab")]).length ≠ 1 ∧
      (issuedRequests "en" [] [(0, "a"), (100, "ab")]).map
          SearchRequest.query =
        ["ab", "ab"] := by
  refine ⟨by decide, rfl, by decide, rfl⟩

/-- Claim C4 as amended: when the query changes twice within the 300 ms
window (both values nonempty), two network requests are issued, one per
uncleared timeout; both fire after the second change and both carry the
final query value, submitted at page 0.  A single query change issues
exactly one request carrying that query, so the doubling is caused
precisely by the second scheduled timeout never being cleared. -/
theorem debounce_two_changes_two_requests (locale : String)
    (sv : List (String × String)) (t0 t1 : Nat) (q0 q1 : String)
    (h0 : q0 ≠ "") (h1 : q1 ≠ "") (hle : t0 ≤ t1) (hwin : t1 < t0 + 300) :
    issuedRequests locale sv [(t0, q0), (t1, q1)] =
        [makeSearch locale sv q1 0, makeSearch locale sv q1 0] ∧
      (issuedRequests locale sv [(t0, q0), (t1, q1)]).length = 2 ∧
      issuedRequests locale sv [(t0, q0)] = [makeSearch locale sv q0 0] := by
  have e0 : queryAt [(t0, q0), (t1, q1)] (t0 + 300) = q1 := by
    have c0 : t0 ≤ t0 + 300 := Nat.le_add_right t0 300
    have c1 : t1 ≤ t0 + 300 := Nat.le_of_lt hwin
    simp [queryAt, c0, c1]
  have e1 : queryAt [(t0, q0), (t1, q1)] (t1 + 300) = q1 := by
    have c0 : t0 ≤ t1 + 300 := Nat.le_trans hle (Nat.le_add_right t1 300)
    have c1 : t1 ≤ t1 + 300 := Nat.le_add_right t1 300
    simp [queryAt, c0, c1]
  have e2 : queryAt [(t0, q0)] (t0 + 300) = q0 := by
    have c0 : t0 ≤ t0 + 300 := Nat.le_add_right t0 300
    simp [queryAt, c0]
  refine ⟨?_, ?_, ?_⟩
  · simp [issuedRequests, h0, h1, e0, e1]
  · simp [issuedRequests, h0, h1]
  · simp [issuedRequests, h0, e2]

theorem debounce_two_changes_two_requests_witness :
    issuedRequests "en" [] [(0, "a"), (100, "ab")] =
        [makeSearch "en" [] "ab" 0, makeSearch "en" [] "ab" 0] ∧
      (issuedRequests "en" [] [(0, "a"), (100, "ab")]).length = 2 ∧
      issuedRequests "en" [] [(0, "a")] = [makeSearch "en" [] "a" 0] :=
  debounce_two_changes_two_requests "en" [] 0 100 "a" "ab" (by decide)
    (by decide) (by decide) (by decide)
